import Mathlib

/-!
Verification of the TrenchBot in-memory trading engine (src/main.py).

The engine keeps all state in module-level Python dicts and lists:
`_trench_orders : Dict[str, TrenchOrder]`, `_trench_positions :
Dict[int, List[TrenchPosition]]`, `_trench_balances : Dict[int,
TrenchUserBalance]`, `_trench_order_id_counter : int`,
`_trench_rate_limit : Dict[int, List[float]]`, `_trench_mock_prices :
Dict[str, int]` and `_trench_limit_orders : List[TrenchOrder]`.

Shallow embedding conventions:
* Python dicts become insertion-ordered association lists (`Dict K V`
  below); assignment `d[k] = v` replaces the value in place when the key
  exists and appends otherwise, exactly like a Python dict.
* `_trench_limit_orders` holds aliases of the very objects stored in
  `_trench_orders`; we model the heap by keying every order by its id
  and model the working set as a list of order ids, reading the order
  through the registry.
* Python ints are unbounded, so they become `Int`.  Python `//` is floor
  division, which on `Int` is `Int.fdiv` (Python raises
  `ZeroDivisionError` on a zero divisor; `Int.fdiv` returns 0 there, so
  theorems carry a nonzero-divisor hypothesis wherever the code can
  reach a division).
* Timestamps (`time.time()`) are passed in explicitly as a `now : Int`
  parameter; they only ever get stored, never compared by the engine
  except in the rate window.
* Functions that raise engine exceptions return `Except TrenchError` /
  an `Option TrenchError` paired with the state they leave behind.
-/

/-- Insertion-ordered association list standing for a Python dict. -/
abbrev Dict (K V : Type) : Type := List (K × V)

/-- `d.get(k)` / `k in d` lookup: first (and, after `dinsert`, only)
binding of `k`. -/
def dlookup {K V : Type} [DecidableEq K] : Dict K V → K → Option V
  | [], _ => none
  | (k', v') :: rest, k => if k = k' then some v' else dlookup rest k

/-- `d[k] = v`: replace in place when the key exists, append otherwise —
the update discipline of a Python dict, which preserves insertion
order. -/
def dinsert {K V : Type} [DecidableEq K] : Dict K V → K → V → Dict K V
  | [], k, v => [(k, v)]
  | (k', v') :: rest, k, v =>
    if k = k' then (k, v) :: rest else (k', v') :: dinsert rest k v

theorem dlookup_dinsert_self {K V : Type} [DecidableEq K]
    (d : Dict K V) (k : K) (v : V) : dlookup (dinsert d k v) k = some v := by
  induction d with
  | nil => simp [dinsert, dlookup]
  | cons hd tl ih =>
    by_cases h : k = hd.1
    · simp [dinsert, dlookup, h]
    · simp [dinsert, dlookup, h, ih]

theorem dlookup_dinsert_ne {K V : Type} [DecidableEq K]
    (d : Dict K V) (k k' : K) (v : V) (h : k' ≠ k) :
    dlookup (dinsert d k v) k' = dlookup d k' := by
  induction d with
  | nil => simp [dinsert, dlookup, h]
  | cons hd tl ih =>
    by_cases hk : k = hd.1
    · subst hk
      simp [dinsert, dlookup, h]
    · by_cases hk' : k' = hd.1
      · simp [dinsert, dlookup, hk, hk']
      · simp [dinsert, dlookup, hk, hk', ih]

-- ---------------------------------------------------------------------------
-- Constants (src/main.py lines 27-55; env defaults)
-- ---------------------------------------------------------------------------

def TRENCH_SCALE : Int := 10 ^ 18

def TRENCH_MAX_ORDERS_PER_USER : Nat := 50

def TRENCH_RATE_LIMIT_PER_MIN : Nat := 20

def TRENCH_DEFAULT_PAIR : String := "TRCH/ETH"

/-- First 8 hex chars of `sha256("TrenchBot.TradingEngine")`, used in
order ids (`TRENCH_NAMESPACE[:8]`). -/
def TRENCH_NS8 : String := "81c30764"

-- ---------------------------------------------------------------------------
-- Enums and error taxonomy
-- ---------------------------------------------------------------------------

inductive OrderSide where
  | buy
  | sell
  deriving DecidableEq, Repr

inductive OrderStatus where
  | pending
  | filled
  | cancelled
  /-- The source's `OrderStatus.PARTIAL`, a declared but never produced
  state (fills are all-or-nothing). -/
  | partFilled
  deriving DecidableEq, Repr

inductive OrderType where
  | market
  | limit
  deriving DecidableEq, Repr

/-- The engine's request-level exceptions (`TrenchBotError` subclasses)
that the embedded operations can raise. -/
inductive TrenchError where
  | rateLimitExceeded
  | invalidPair
  | maxOrdersExceeded
  | zeroAmount
  | orderNotFound
  | notAuthorized
  | orderAlreadyFilled
  | orderAlreadyCancelled
  deriving DecidableEq, Repr

-- ---------------------------------------------------------------------------
-- Data structures (src/main.py lines 143-177)
-- ---------------------------------------------------------------------------

structure TrenchOrder where
  order_id : String
  user_id : Int
  chat_id : Int
  pair : String
  side : OrderSide
  order_type : OrderType
  amount_quote : Int
  amount_base : Int
  price_limit : Option Int
  status : OrderStatus
  created_at : Int
  updated_at : Int
  fill_price : Option Int
  filled_amount : Int
  deriving DecidableEq, Repr

structure TrenchPosition where
  user_id : Int
  pair : String
  side : OrderSide
  size : Int
  entry_price : Int
  updated_at : Int
  deriving DecidableEq, Repr

structure TrenchUserBalance where
  user_id : Int
  quote_balance : Int
  base_balance : Int
  updated_at : Int
  deriving DecidableEq, Repr

/-- The module-level mutable state of src/main.py, gathered into one
record. -/
structure TrenchState where
  orders : Dict String TrenchOrder
  positions : Dict Int (List TrenchPosition)
  balances : Dict Int TrenchUserBalance
  order_id_counter : Int
  rate_limit : Dict Int (List Int)
  mock_prices : Dict String Int
  limit_orders : List String
  deriving DecidableEq, Repr

/-- The seeded in-memory state.  The Python literal for the TRCH/ETH
price is `0.0025 * TRENCH_SCALE`, a float whose IEEE-754 double value is
exactly 2500000000000000; the engine model idealizes it as that integer
(the float-typing defect itself is treated separately, see
`seededMockPrices`). -/
def initialTrenchState : TrenchState :=
  { orders := []
    positions := []
    balances := []
    order_id_counter := 0
    rate_limit := []
    mock_prices :=
      [("TRCH/ETH", 2500000000000000),
       ("TRCH/USDT", 5 * TRENCH_SCALE),
       ("ETH/USDT", 2000 * TRENCH_SCALE)]
    limit_orders := [] }

-- ---------------------------------------------------------------------------
-- Helpers (src/main.py lines 195-229)
-- ---------------------------------------------------------------------------

/-- `_trench_next_order_id`, as a pure function of the already-bumped
counter: `f"TRN_{TRENCH_NAMESPACE[:8]}_{counter}"`. -/
def _trench_next_order_id (counter : Int) : String :=
  "TRN_" ++ TRENCH_NS8 ++ "_" ++ toString counter

/-- Balance seeded on first touch by `_trench_get_or_create_balance`:
1000 quote units, 0 base. -/
def seedBalance (user_id now : Int) : TrenchUserBalance :=
  { user_id := user_id
    quote_balance := 1000 * TRENCH_SCALE
    base_balance := 0
    updated_at := now }

/-- `_trench_get_or_create_balance`: returns the balance the code reads
(seeding it when absent) together with the balances dict after the
possible seeding. -/
def _trench_get_or_create_balance (now user_id : Int)
    (balances : Dict Int TrenchUserBalance) :
    TrenchUserBalance × Dict Int TrenchUserBalance :=
  match dlookup balances user_id with
  | some b => (b, balances)
  | none => (seedBalance user_id now, dinsert balances user_id (seedBalance user_id now))

/-- `_trench_get_mock_price`: total lookup with silent default
`TRENCH_SCALE` (`_trench_mock_prices.get(pair, TRENCH_SCALE)`). -/
def _trench_get_mock_price (s : TrenchState) (pair : String) : Int :=
  (dlookup s.mock_prices pair).getD TRENCH_SCALE

/-- `_trench_check_rate_limit`: sliding 60-second window.  Returns the
error (if the window is full) and the rate dict the call leaves behind
(the Python code first ensures the user's key exists, then on success
stores the pruned window with `now` appended). -/
def _trench_check_rate_limit (now user_id : Int)
    (rl : Dict Int (List Int)) : Option TrenchError × Dict Int (List Int) :=
  let rl0 := match dlookup rl user_id with
    | none => dinsert rl user_id []
    | some _ => rl
  let window := ((dlookup rl0 user_id).getD []).filter (fun t => decide (now - t < 60))
  if TRENCH_RATE_LIMIT_PER_MIN ≤ window.length then
    (some TrenchError.rateLimitExceeded, rl0)
  else
    (none, dinsert rl0 user_id (window ++ [now]))

/-- Count of a user's `PENDING` orders, as computed inline by both
placement functions (`len([o for o in _trench_orders.values() if
o.user_id == user_id and o.status == PENDING])`). -/
def pendingCount (user_id : Int) (s : TrenchState) : Nat :=
  s.orders.countP
    (fun kv => decide (kv.2.user_id = user_id ∧ kv.2.status = OrderStatus.pending))

-- ---------------------------------------------------------------------------
-- Fill algorithm (src/main.py lines 276-312, `_trench_fill_order`)
-- ---------------------------------------------------------------------------

/-- The in-place mutation of the order object performed by
`_trench_fill_order` once it commits to filling. -/
def filledOrder (now price : Int) (o : TrenchOrder) : TrenchOrder :=
  { o with
    status := OrderStatus.filled
    filled_amount := o.amount_base
    fill_price := some price
    updated_at := now }

/-- First position in the list matching `(pair, side)` — the `next(...)`
lookup in `_trench_fill_order`. -/
def findPos : List TrenchPosition → String → OrderSide → Option TrenchPosition
  | [], _, _ => none
  | p :: rest, pair, side =>
    if p.pair = pair ∧ p.side = side then some p else findPos rest pair side

/-- The position-list update of `_trench_fill_order`: mutate the first
`(pair, side)` match with the volume-weighted entry price (Python `//`,
i.e. `Int.fdiv`), or append a fresh position when there is none. -/
def fillPositions (user_id : Int) (pair : String) (side : OrderSide)
    (amount_base price now : Int) :
    List TrenchPosition → List TrenchPosition
  | [] =>
    [{ user_id := user_id, pair := pair, side := side,
       size := amount_base, entry_price := price, updated_at := now }]
  | p :: rest =>
    if p.pair = pair ∧ p.side = side then
      { p with
        entry_price := Int.fdiv (p.entry_price * p.size + price * amount_base)
          (p.size + amount_base)
        size := p.size + amount_base
        updated_at := now } :: rest
    else p :: fillPositions user_id pair side amount_base price now rest

/-- The balance update of `_trench_fill_order` (conservation rule). -/
def applyBalanceDelta (now : Int) (o : TrenchOrder)
    (b : TrenchUserBalance) : TrenchUserBalance :=
  if o.side = OrderSide.buy then
    { b with
      base_balance := b.base_balance + o.amount_base
      quote_balance := b.quote_balance - o.amount_quote
      updated_at := now }
  else
    { b with
      quote_balance := b.quote_balance + o.amount_quote
      base_balance := b.base_balance - o.amount_base
      updated_at := now }

/-- `_trench_fill_order`: no-op unless the order is `PENDING`; otherwise
quote the order's own pair (total, with silent default), mark the order
filled, apply the weighted-average position update and the conservation
balance update.  The Python function receives the order object; here the
order is named by its id in the registry (an absent id is a no-op, a
case the source cannot reach because every fill call site passes an
object stored in `_trench_orders`). -/
def _trench_fill_order (now : Int) (oid : String) (s : TrenchState) : TrenchState :=
  match dlookup s.orders oid with
  | none => s
  | some o =>
    if o.status = OrderStatus.pending then
      let price := _trench_get_mock_price s o.pair
      let plist := (dlookup s.positions o.user_id).getD []
      let bpair := _trench_get_or_create_balance now o.user_id s.balances
      { s with
        orders := dinsert s.orders oid (filledOrder now price o)
        positions := dinsert s.positions o.user_id
          (fillPositions o.user_id o.pair o.side o.amount_base price now plist)
        balances := dinsert bpair.2 o.user_id (applyBalanceDelta now o bpair.1) }
    else s

/-- The divisor Python evaluates inside `_trench_fill_order` when a
matching position exists (`pos.size + order.amount_base`); when no
matching position exists no division happens and we return 1.  A
hypothesis `fillPosTotal s o ≠ 0` marks exactly the executions in which
the Python code completes instead of dying on `ZeroDivisionError`. -/
def fillPosTotal (s : TrenchState) (o : TrenchOrder) : Int :=
  match findPos ((dlookup s.positions o.user_id).getD []) o.pair o.side with
  | some p => p.size + o.amount_base
  | none => 1

-- ---------------------------------------------------------------------------
-- Placement (src/main.py lines 237-273, `trench_place_order`)
-- ---------------------------------------------------------------------------

/-- `trench_place_order`: rate gate, pair check, per-user pending-order
cap, amount positivity — in that order, first failure wins.  Sizing uses
the live quote (`amount_base = amount_quote * SCALE // price`).  A
`MARKET` order is filled synchronously before returning. -/
def trench_place_order (now user_id chat_id : Int) (pair : String)
    (side : OrderSide) (amount_quote : Int) (order_type : OrderType)
    (price_limit : Option Int) (s : TrenchState) :
    Except TrenchError (TrenchOrder × TrenchState) :=
  match _trench_check_rate_limit now user_id s.rate_limit with
  | (some e, _) => Except.error e
  | (none, rl') =>
    let s1 := { s with rate_limit := rl' }
    match dlookup s1.mock_prices pair with
    | none => Except.error TrenchError.invalidPair
    | some _ =>
      if TRENCH_MAX_ORDERS_PER_USER ≤ pendingCount user_id s1 then
        Except.error TrenchError.maxOrdersExceeded
      else if amount_quote ≤ 0 then
        Except.error TrenchError.zeroAmount
      else
        let price := _trench_get_mock_price s1 pair
        let amount_base := Int.fdiv (amount_quote * TRENCH_SCALE) price
        let ctr := s1.order_id_counter + 1
        let oid := _trench_next_order_id ctr
        let o : TrenchOrder :=
          { order_id := oid, user_id := user_id, chat_id := chat_id,
            pair := pair, side := side, order_type := order_type,
            amount_quote := amount_quote, amount_base := amount_base,
            price_limit := price_limit, status := OrderStatus.pending,
            created_at := now, updated_at := now,
            fill_price := none, filled_amount := 0 }
        let s2 := { s1 with order_id_counter := ctr, orders := dinsert s1.orders oid o }
        if order_type = OrderType.market then
          let s3 := _trench_fill_order now oid s2
          Except.ok ((dlookup s3.orders oid).getD o, s3)
        else
          Except.ok (o, s2)

-- ---------------------------------------------------------------------------
-- Limit placement (src/main.py lines 710-743, `trench_place_limit_order`)
-- ---------------------------------------------------------------------------

/-- `trench_place_limit_order`: same gate order, except the amount check
is `amount_quote <= 0 or price_limit <= 0`, sizing divides by the
trigger price, and the order joins the pending-limit working set instead
of filling. -/
def trench_place_limit_order (now user_id chat_id : Int) (pair : String)
    (side : OrderSide) (amount_quote price_limit : Int) (s : TrenchState) :
    Except TrenchError (TrenchOrder × TrenchState) :=
  match _trench_check_rate_limit now user_id s.rate_limit with
  | (some e, _) => Except.error e
  | (none, rl') =>
    let s1 := { s with rate_limit := rl' }
    match dlookup s1.mock_prices pair with
    | none => Except.error TrenchError.invalidPair
    | some _ =>
      if TRENCH_MAX_ORDERS_PER_USER ≤ pendingCount user_id s1 then
        Except.error TrenchError.maxOrdersExceeded
      else if amount_quote ≤ 0 ∨ price_limit ≤ 0 then
        Except.error TrenchError.zeroAmount
      else
        let amount_base := Int.fdiv (amount_quote * TRENCH_SCALE) price_limit
        let ctr := s1.order_id_counter + 1
        let oid := _trench_next_order_id ctr
        let o : TrenchOrder :=
          { order_id := oid, user_id := user_id, chat_id := chat_id,
            pair := pair, side := side, order_type := OrderType.limit,
            amount_quote := amount_quote, amount_base := amount_base,
            price_limit := some price_limit, status := OrderStatus.pending,
            created_at := now, updated_at := now,
            fill_price := none, filled_amount := 0 }
        Except.ok (o,
          { s1 with
            order_id_counter := ctr
            orders := dinsert s1.orders oid o
            limit_orders := s1.limit_orders ++ [oid] })

-- ---------------------------------------------------------------------------
-- Cancellation (src/main.py lines 315-328, `trench_cancel_order`)
-- ---------------------------------------------------------------------------

/-- `trench_cancel_order`: rate gate, then `OrderNotFound`,
`NotAuthorized`, `OrderAlreadyFilled`, `OrderAlreadyCancelled`;
otherwise flips the order to `CANCELLED` and stamps `updated_at`.  The
source performs no removal from `_trench_limit_orders`. -/
def trench_cancel_order (now user_id : Int) (oid : String) (s : TrenchState) :
    Except TrenchError (TrenchOrder × TrenchState) :=
  match _trench_check_rate_limit now user_id s.rate_limit with
  | (some e, _) => Except.error e
  | (none, rl') =>
    let s1 := { s with rate_limit := rl' }
    match dlookup s1.orders oid with
    | none => Except.error TrenchError.orderNotFound
    | some o =>
      if o.user_id ≠ user_id then Except.error TrenchError.notAuthorized
      else if o.status = OrderStatus.filled then Except.error TrenchError.orderAlreadyFilled
      else if o.status = OrderStatus.cancelled then Except.error TrenchError.orderAlreadyCancelled
      else
        let o' := { o with status := OrderStatus.cancelled, updated_at := now }
        Except.ok (o', { s1 with orders := dinsert s1.orders oid o' })

-- ---------------------------------------------------------------------------
-- Queries (src/main.py lines 338-350, 947-949)
-- ---------------------------------------------------------------------------

/-- `trench_get_price`: the public lookup, which (unlike
`_trench_get_mock_price`) raises `InvalidPair` on an unknown pair. -/
def trench_get_price (s : TrenchState) (pair : String) : Except TrenchError Int :=
  match dlookup s.mock_prices pair with
  | none => Except.error TrenchError.invalidPair
  | some p => Except.ok p

/-- `trench_set_mock_price` (test-only setter). -/
def trench_set_mock_price (pair : String) (price : Int) (s : TrenchState) : TrenchState :=
  { s with mock_prices := dinsert s.mock_prices pair price }

-- ---------------------------------------------------------------------------
-- Limit-order sweep (src/main.py lines 746-759, `trench_try_fill_limit_orders`)
-- ---------------------------------------------------------------------------

/-- The loop body of the sweep: walk the working set, and for every
still-`PENDING` order compare the single `market_price` (quoted once for
`TRENCH_DEFAULT_PAIR`) against the order's `price_limit` (`None`
coerced to 0 by `or 0`): a Buy triggers when `market_price <=
price_limit`, a Sell when `market_price >= price_limit`; a triggered
order is filled through `_trench_fill_order` and counted. -/
def sweepLoop (now market_price : Int) :
    List String → TrenchState → Nat → Nat × TrenchState
  | [], s, n => (n, s)
  | oid :: rest, s, n =>
    match dlookup s.orders oid with
    | none => sweepLoop now market_price rest s n
    | some o =>
      if o.status ≠ OrderStatus.pending then
        sweepLoop now market_price rest s n
      else if o.side = OrderSide.buy ∧ market_price ≤ o.price_limit.getD 0 then
        sweepLoop now market_price rest (_trench_fill_order now oid s) (n + 1)
      else if o.side = OrderSide.sell ∧ o.price_limit.getD 0 ≤ market_price then
        sweepLoop now market_price rest (_trench_fill_order now oid s) (n + 1)
      else
        sweepLoop now market_price rest s n

/-- `trench_try_fill_limit_orders`: quote the default pair once, run the
sweep loop over the working set, then rebuild the working set keeping
only the orders still `PENDING`.  Returns the number filled. -/
def trench_try_fill_limit_orders (now : Int) (s : TrenchState) : Nat × TrenchState :=
  let market_price := _trench_get_mock_price s TRENCH_DEFAULT_PAIR
  let r := sweepLoop now market_price s.limit_orders s 0
  (r.1,
   { r.2 with
     limit_orders := r.2.limit_orders.filter (fun oid =>
       match dlookup r.2.orders oid with
       | some o => decide (o.status = OrderStatus.pending)
       | none => false) })

-- ---------------------------------------------------------------------------
-- Snapshot codec (src/main.py lines 767-846)
-- ---------------------------------------------------------------------------

/-- A field read from a snapshot record whose Python value is either a
string (parsed through the `OrderSide(...)` / `OrderStatus(...)` enum
constructor, which raises `ValueError` on an unknown value) or some
non-string (in which case the source falls back to `BUY` /
`PENDING`). -/
inductive PyField where
  | str (s : String)
  | nonstr
  deriving DecidableEq, Repr

/-- `OrderSide(...).value` strings. -/
def sideStr : OrderSide → String
  | OrderSide.buy => "buy"
  | OrderSide.sell => "sell"

/-- `OrderStatus(...).value` strings. -/
def statusStr : OrderStatus → String
  | OrderStatus.pending => "pending"
  | OrderStatus.filled => "filled"
  | OrderStatus.cancelled => "cancelled"
  | OrderStatus.partFilled => "partial"

/-- The exceptions `trench_import_state` can die on: a missing record
key (`KeyError`) or a bad enum / non-numeric user-id string
(`ValueError`). -/
inductive ImportErr where
  | keyError
  | valueError
  deriving DecidableEq, Repr

/-- `OrderSide(o["side"]) if isinstance(o["side"], str) else BUY`:
`none` models a missing key. -/
def parseSide : Option PyField → Except ImportErr OrderSide
  | none => Except.error ImportErr.keyError
  | some (PyField.str s) =>
    if s = "buy" then Except.ok OrderSide.buy
    else if s = "sell" then Except.ok OrderSide.sell
    else Except.error ImportErr.valueError
  | some PyField.nonstr => Except.ok OrderSide.buy

/-- `OrderStatus(o["status"]) if isinstance(o["status"], str) else
PENDING`. -/
def parseStatus : Option PyField → Except ImportErr OrderStatus
  | none => Except.error ImportErr.keyError
  | some (PyField.str s) =>
    if s = "pending" then Except.ok OrderStatus.pending
    else if s = "filled" then Except.ok OrderStatus.filled
    else if s = "cancelled" then Except.ok OrderStatus.cancelled
    else if s = "partial" then Except.ok OrderStatus.partFilled
    else Except.error ImportErr.valueError
  | some PyField.nonstr => Except.ok OrderStatus.pending

/-- One record of the snapshot's `orders` list.  Fields read with
`o[...]` are `Option` (missing → `KeyError`); fields read with
`o.get(..., default)` are `Option` with the default applied at import
time. -/
structure SnapOrder where
  order_id : Option String
  user_id : Option Int
  pair : Option String
  side : Option PyField
  status : Option PyField
  amount_quote : Option Int
  amount_base : Option Int
  created_at : Option Int
  deriving DecidableEq, Repr

structure SnapBalance where
  quote : Option Int
  base : Option Int
  deriving DecidableEq, Repr

structure SnapPosition where
  pair : Option String
  side : Option PyField
  size : Option Int
  entry_price : Option Int
  deriving DecidableEq, Repr

/-- The snapshot document.  Map keys for `balances` / `positions` are
the result of `int(uid_str)`: `none` models a string that is not a
decimal integer (→ `ValueError`). -/
structure Snapshot where
  orders : List SnapOrder
  balances : List (Option Int × SnapBalance)
  positions : List (Option Int × List SnapPosition)
  order_id_counter : Int
  deriving DecidableEq, Repr

/-- `trench_export_state`, orders part: a lossy record — `chat_id`,
`price_limit`, `fill_price`, `filled_amount` and the order type are
dropped. -/
def serOrder (o : TrenchOrder) : SnapOrder :=
  { order_id := some o.order_id
    user_id := some o.user_id
    pair := some o.pair
    side := some (PyField.str (sideStr o.side))
    status := some (PyField.str (statusStr o.status))
    amount_quote := some o.amount_quote
    amount_base := some o.amount_base
    created_at := some o.created_at }

def serPosition (p : TrenchPosition) : SnapPosition :=
  { pair := some p.pair
    side := some (PyField.str (sideStr p.side))
    size := some p.size
    entry_price := some p.entry_price }

/-- `trench_export_state`: note the positions serializer keeps only
`p.size != 0` (`for p in plist if p.size != 0`). -/
def trench_export_state (s : TrenchState) : Snapshot :=
  { orders := s.orders.map (fun kv => serOrder kv.2)
    balances := s.balances.map (fun kv =>
      (some kv.1, { quote := some kv.2.quote_balance, base := some kv.2.base_balance }))
    positions := s.positions.map (fun kv =>
      (some kv.1, (kv.2.filter (fun p => decide (p.size ≠ 0))).map serPosition))
    order_id_counter := s.order_id_counter }

/-- The loop over `data.get("orders", [])`: each record is reconstructed
as a `MARKET` order with `chat_id = 0`, `price_limit = None`; a record
reconstructed as `PENDING` is also appended to the pending-limit working
set.  A parse failure stops the loop, leaving the partly rebuilt state
behind (the Python exception propagates out of `trench_import_state`). -/
def snapLoadOrders (now : Int) :
    List SnapOrder → TrenchState → Option ImportErr × TrenchState
  | [], s => (none, s)
  | o :: rest, s =>
    match parseSide o.side with
    | Except.error e => (some e, s)
    | Except.ok side =>
      match parseStatus o.status with
      | Except.error e => (some e, s)
      | Except.ok status =>
        match o.order_id with
        | none => (some ImportErr.keyError, s)
        | some oid =>
          match o.user_id with
          | none => (some ImportErr.keyError, s)
          | some uid =>
            let ord : TrenchOrder :=
              { order_id := oid, user_id := uid, chat_id := 0,
                pair := o.pair.getD TRENCH_DEFAULT_PAIR, side := side,
                order_type := OrderType.market,
                amount_quote := o.amount_quote.getD 0,
                amount_base := o.amount_base.getD 0,
                price_limit := none, status := status,
                created_at := o.created_at.getD now, updated_at := now,
                fill_price := none, filled_amount := 0 }
            snapLoadOrders now rest
              { s with
                orders := dinsert s.orders oid ord
                limit_orders :=
                  if status = OrderStatus.pending then s.limit_orders ++ [oid]
                  else s.limit_orders }

/-- The loop over `data.get("balances", {}).items()`. -/
def snapLoadBalances (now : Int) :
    List (Option Int × SnapBalance) → TrenchState → Option ImportErr × TrenchState
  | [], s => (none, s)
  | (none, _) :: _, s => (some ImportErr.valueError, s)
  | (some uid, b) :: rest, s =>
    snapLoadBalances now rest
      { s with
        balances := dinsert s.balances uid
          { user_id := uid, quote_balance := b.quote.getD 0,
            base_balance := b.base.getD 0, updated_at := now } }

/-- The inner loop appending one user's positions one record at a time
(`_trench_positions[uid].append(...)`), so a mid-list failure leaves the
prefix in place. -/
def snapLoadPosList (now uid : Int) :
    List SnapPosition → TrenchState → Option ImportErr × TrenchState
  | [], s => (none, s)
  | p :: rest, s =>
    match parseSide p.side with
    | Except.error e => (some e, s)
    | Except.ok side =>
      let pos : TrenchPosition :=
        { user_id := uid, pair := p.pair.getD TRENCH_DEFAULT_PAIR,
          side := side, size := p.size.getD 0,
          entry_price := p.entry_price.getD 0, updated_at := now }
      snapLoadPosList now uid rest
        { s with
          positions := dinsert s.positions uid
            (((dlookup s.positions uid).getD []) ++ [pos]) }

/-- The loop over `data.get("positions", {}).items()`: `int(uid_str)`
first, then `_trench_positions[uid] = []`, then the inner append
loop. -/
def snapLoadPositions (now : Int) :
    List (Option Int × List SnapPosition) → TrenchState → Option ImportErr × TrenchState
  | [], s => (none, s)
  | (none, _) :: _, s => (some ImportErr.valueError, s)
  | (some uid, plist) :: rest, s =>
    let s1 := { s with positions := dinsert s.positions uid [] }
    match snapLoadPosList now uid plist s1 with
    | (some e, s') => (some e, s')
    | (none, s2) => snapLoadPositions now rest s2

/-- `trench_import_state`: clears the four in-memory stores FIRST (the
rate windows and the price table are not cleared), then rebuilds them
record by record; the id counter is restored only at the very end.  On a
parse failure the function returns the error together with the state the
aborted execution leaves behind — the prior contents are already gone at
that point. -/
def trench_import_state (now : Int) (data : Snapshot) (s : TrenchState) :
    Option ImportErr × TrenchState :=
  let s0 : TrenchState :=
    { s with orders := [], balances := [], positions := [], limit_orders := [] }
  match snapLoadOrders now data.orders s0 with
  | (some e, s') => (some e, s')
  | (none, s1) =>
    match snapLoadBalances now data.balances s1 with
    | (some e, s') => (some e, s')
    | (none, s2) =>
      match snapLoadPositions now data.positions s2 with
      | (some e, s') => (some e, s')
      | (none, s3) => (none, { s3 with order_id_counter := data.order_id_counter })

-- ---------------------------------------------------------------------------
-- The seeded price table with Python's runtime types (for the
-- fixed-point claim)
-- ---------------------------------------------------------------------------

/-- A Python number as it sits in `_trench_mock_prices`: either an
`int`, or a `float` whose IEEE-754 double value happens to be exactly
the integer carried (the only float in the table, `0.0025 * 10**18`,
evaluates to exactly 2500000000000000.0). -/
inductive PyNum where
  | intVal (z : Int)
  | floatVal (z : Int)
  deriving DecidableEq, Repr

def PyNum.isInt : PyNum → Bool
  | PyNum.intVal _ => true
  | PyNum.floatVal _ => false

/-- The seeded `_trench_mock_prices` literal (src/main.py lines 188-192)
with each entry tagged by its Python runtime type: `"TRCH/ETH": 0.0025 *
TRENCH_SCALE` is a float expression (annotated `Dict[str, int]`
notwithstanding), the other two are ints. -/
def seededMockPrices : Dict String PyNum :=
  [("TRCH/ETH", PyNum.floatVal 2500000000000000),
   ("TRCH/USDT", PyNum.intVal (5 * TRENCH_SCALE)),
   ("ETH/USDT", PyNum.intVal (2000 * TRENCH_SCALE))]

-- ---------------------------------------------------------------------------
-- Helper lemmas about the fill algorithm
-- ---------------------------------------------------------------------------

theorem fill_of_lookup_none (now : Int) (oid : String) (s : TrenchState)
    (h : dlookup s.orders oid = none) : _trench_fill_order now oid s = s := by
  simp [_trench_fill_order, h]

theorem fill_of_nonpending (now : Int) (oid : String) (s : TrenchState)
    (o : TrenchOrder) (h : dlookup s.orders oid = some o)
    (hs : o.status ≠ OrderStatus.pending) : _trench_fill_order now oid s = s := by
  simp [_trench_fill_order, h, hs]

/-- The filled state, spelled out, when the order is pending. -/
theorem fill_of_pending (now : Int) (oid : String) (s : TrenchState)
    (o : TrenchOrder) (h : dlookup s.orders oid = some o)
    (hs : o.status = OrderStatus.pending) :
    _trench_fill_order now oid s =
      { s with
        orders := dinsert s.orders oid
          (filledOrder now (_trench_get_mock_price s o.pair) o)
        positions := dinsert s.positions o.user_id
          (fillPositions o.user_id o.pair o.side o.amount_base
            (_trench_get_mock_price s o.pair) now
            ((dlookup s.positions o.user_id).getD []))
        balances := dinsert (_trench_get_or_create_balance now o.user_id s.balances).2
          o.user_id
          (applyBalanceDelta now o (_trench_get_or_create_balance now o.user_id s.balances).1) } := by
  simp [_trench_fill_order, h, hs]

theorem getOrCreate_lookup_ne (now uid u : Int)
    (d : Dict Int TrenchUserBalance) (h : u ≠ uid) :
    dlookup (_trench_get_or_create_balance now uid d).2 u = dlookup d u := by
  unfold _trench_get_or_create_balance
  cases hd : dlookup d uid with
  | none => simp [dlookup_dinsert_ne d uid u _ h]
  | some b => simp

-- ---------------------------------------------------------------------------
-- C1: balance conservation per fill
-- ---------------------------------------------------------------------------

/-- C1.  For every fill applied to a pending order, the owner's balance
(the one `_trench_get_or_create_balance` reads, seeding it on first
touch) changes exactly by the conservation rule: a Buy subtracts
`amount_quote` from the quote balance and adds `amount_base` to the base
balance; a Sell does the inverse.  The owner's `user_id` is untouched
and every other user's balance entry is untouched (the owner's
`updated_at` is restamped to `now`, a timestamp, not a balance; there is
no division in the balance update, so there is no rounding beyond the
truncation already baked into `amount_base`).  The hypothesis
`fillPosTotal s o ≠ 0` confines the statement to executions where the
preceding position update does not raise `ZeroDivisionError` in
Python. -/
theorem C1_fill_balance_conservation
    (now : Int) (oid : String) (s : TrenchState) (o : TrenchOrder)
    (ho : dlookup s.orders oid = some o)
    (hp : o.status = OrderStatus.pending)
    (hdiv : fillPosTotal s o ≠ 0) :
    ∃ b', dlookup (_trench_fill_order now oid s).balances o.user_id = some b' ∧
      b'.user_id = (_trench_get_or_create_balance now o.user_id s.balances).1.user_id ∧
      (o.side = OrderSide.buy →
        b'.quote_balance =
          (_trench_get_or_create_balance now o.user_id s.balances).1.quote_balance
            - o.amount_quote ∧
        b'.base_balance =
          (_trench_get_or_create_balance now o.user_id s.balances).1.base_balance
            + o.amount_base) ∧
      (o.side = OrderSide.sell →
        b'.quote_balance =
          (_trench_get_or_create_balance now o.user_id s.balances).1.quote_balance
            + o.amount_quote ∧
        b'.base_balance =
          (_trench_get_or_create_balance now o.user_id s.balances).1.base_balance
            - o.amount_base) ∧
      b'.updated_at = now ∧
      (∀ u : Int, u ≠ o.user_id →
        dlookup (_trench_fill_order now oid s).balances u = dlookup s.balances u) := by
  rw [fill_of_pending now oid s o ho hp]
  refine ⟨applyBalanceDelta now o (_trench_get_or_create_balance now o.user_id s.balances).1,
    ?_, ?_, ?_, ?_, ?_, ?_⟩
  · exact dlookup_dinsert_self _ _ _
  · cases hside : o.side <;> simp [applyBalanceDelta, hside]
  · intro hside
    simp [applyBalanceDelta, hside]
  · intro hside
    simp [applyBalanceDelta, hside]
  · cases hside : o.side <;> simp [applyBalanceDelta, hside]
  · intro u hu
    rw [dlookup_dinsert_ne _ _ _ _ hu]
    exact getOrCreate_lookup_ne now o.user_id u s.balances hu

/-- Witness for C1 on the concrete scenario of spec §8: user 1 buys
`10 * SCALE` quote of a pair priced `2 * SCALE`, from a fresh balance. -/
def c1DemoOrder : TrenchOrder :=
  { order_id := "W1", user_id := 1, chat_id := 1, pair := "A/B",
    side := OrderSide.buy, order_type := OrderType.market,
    amount_quote := 10 * TRENCH_SCALE, amount_base := 5 * TRENCH_SCALE,
    price_limit := none, status := OrderStatus.pending,
    created_at := 0, updated_at := 0, fill_price := none, filled_amount := 0 }

def c1DemoState : TrenchState :=
  { orders := [("W1", c1DemoOrder)]
    positions := []
    balances := []
    order_id_counter := 1
    rate_limit := []
    mock_prices := [("A/B", 2 * TRENCH_SCALE)]
    limit_orders := [] }

theorem C1_fill_balance_conservation_witness :
    ∃ b', dlookup (_trench_fill_order 7 "W1" c1DemoState).balances c1DemoOrder.user_id = some b' ∧
      b'.user_id = (_trench_get_or_create_balance 7 c1DemoOrder.user_id c1DemoState.balances).1.user_id ∧
      (c1DemoOrder.side = OrderSide.buy →
        b'.quote_balance =
          (_trench_get_or_create_balance 7 c1DemoOrder.user_id c1DemoState.balances).1.quote_balance
            - c1DemoOrder.amount_quote ∧
        b'.base_balance =
          (_trench_get_or_create_balance 7 c1DemoOrder.user_id c1DemoState.balances).1.base_balance
            + c1DemoOrder.amount_base) ∧
      (c1DemoOrder.side = OrderSide.sell →
        b'.quote_balance =
          (_trench_get_or_create_balance 7 c1DemoOrder.user_id c1DemoState.balances).1.quote_balance
            + c1DemoOrder.amount_quote ∧
        b'.base_balance =
          (_trench_get_or_create_balance 7 c1DemoOrder.user_id c1DemoState.balances).1.base_balance
            - c1DemoOrder.amount_base) ∧
      b'.updated_at = 7 ∧
      (∀ u : Int, u ≠ c1DemoOrder.user_id →
        dlookup (_trench_fill_order 7 "W1" c1DemoState).balances u =
          dlookup c1DemoState.balances u) :=
  C1_fill_balance_conservation 7 "W1" c1DemoState c1DemoOrder
    (by decide) (by decide) (by decide)

-- ---------------------------------------------------------------------------
-- C2: weighted-average entry price
-- ---------------------------------------------------------------------------

theorem findPos_fillPositions (uid : Int) (pair : String) (side : OrderSide)
    (ab price now : Int) (l : List TrenchPosition) (p : TrenchPosition)
    (h : findPos l pair side = some p) :
    findPos (fillPositions uid pair side ab price now l) pair side =
      some { p with
        entry_price := Int.fdiv (p.entry_price * p.size + price * ab) (p.size + ab)
        size := p.size + ab
        updated_at := now } := by
  induction l with
  | nil => simp [findPos] at h
  | cons hd tl ih =>
    by_cases hm : hd.pair = pair ∧ hd.side = side
    · simp [findPos, hm] at h
      subst h
      simp [fillPositions, findPos, hm]
    · simp [findPos, hm] at h
      simp [fillPositions, findPos, hm, ih h]

/-- The state after two Buy fills of the spec's §8-style scenario: two
pending market Buy orders of base sizes `s1` and `s2` for the same
user/pair/side, no pre-existing position, the pair quoted at `p1`. -/
def twoFillOrder (oid : String) (ab : Int) : TrenchOrder :=
  { order_id := oid, user_id := 1, chat_id := 1, pair := "A/B",
    side := OrderSide.buy, order_type := OrderType.market,
    amount_quote := 0, amount_base := ab, price_limit := none,
    status := OrderStatus.pending, created_at := 0, updated_at := 0,
    fill_price := none, filled_amount := 0 }

def twoFillStart (s1 p1 s2 : Int) : TrenchState :=
  { orders := [("o1", twoFillOrder "o1" s1), ("o2", twoFillOrder "o2" s2)]
    positions := []
    balances := []
    order_id_counter := 2
    rate_limit := []
    mock_prices := [("A/B", p1)]
    limit_orders := [] }

/-- C2.  First conjunct: any fill landing on an existing position with
the same `(user, pair, side)` replaces it (first match, in place) with
`size_old + fillAmount` and the floor-divided volume-weighted entry
price (`Int.fdiv` is Python's `//`, floor division; the nonzero
hypothesis is where Python would otherwise raise `ZeroDivisionError`).
Second conjunct: two sequential Buy fills of base sizes `s1` at quote
`p1` then `s2` at quote `p2` on the same `(pair, side)` end at
`entryPrice = (p1*s1 + p2*s2) fdiv (s1+s2)` and `size = s1+s2`. -/
theorem C2_weighted_average_entry :
    (∀ (now : Int) (oid : String) (s : TrenchState) (o : TrenchOrder) (p : TrenchPosition),
      dlookup s.orders oid = some o →
      o.status = OrderStatus.pending →
      findPos ((dlookup s.positions o.user_id).getD []) o.pair o.side = some p →
      p.size + o.amount_base ≠ 0 →
      ∃ p', findPos ((dlookup (_trench_fill_order now oid s).positions o.user_id).getD [])
          o.pair o.side = some p' ∧
        p'.size = p.size + o.amount_base ∧
        p'.entry_price =
          Int.fdiv (p.entry_price * p.size + _trench_get_mock_price s o.pair * o.amount_base)
            (p.size + o.amount_base)) ∧
    (∀ s1 p1 s2 p2 : Int, 0 < s1 → 0 < s2 →
      ∃ p', findPos ((dlookup
            (_trench_fill_order 2 "o2"
              (trench_set_mock_price "A/B" p2
                (_trench_fill_order 1 "o1" (twoFillStart s1 p1 s2)))).positions 1).getD [])
          "A/B" OrderSide.buy = some p' ∧
        p'.size = s1 + s2 ∧
        p'.entry_price = Int.fdiv (p1 * s1 + p2 * s2) (s1 + s2)) := by
  constructor
  · intro now oid s o p ho hp hfind hdiv
    rw [fill_of_pending now oid s o ho hp]
    refine ⟨{ p with
        entry_price := Int.fdiv (p.entry_price * p.size +
          _trench_get_mock_price s o.pair * o.amount_base) (p.size + o.amount_base)
        size := p.size + o.amount_base
        updated_at := now }, ?_, rfl, rfl⟩
    simp only [dlookup_dinsert_self, Option.getD_some]
    exact findPos_fillPositions o.user_id o.pair o.side o.amount_base
      (_trench_get_mock_price s o.pair) now _ p hfind
  · intro s1 p1 s2 p2 h1 h2
    refine ⟨{ user_id := 1, pair := "A/B", side := OrderSide.buy,
              size := s1 + s2,
              entry_price := Int.fdiv (p1 * s1 + p2 * s2) (s1 + s2),
              updated_at := 2 }, ?_, rfl, rfl⟩
    simp [twoFillStart, twoFillOrder, _trench_fill_order, trench_set_mock_price,
      _trench_get_mock_price, _trench_get_or_create_balance, dlookup, dinsert,
      fillPositions, findPos, filledOrder, applyBalanceDelta, seedBalance]

/-- Witness for C2: first conjunct on a state already holding a
position of size 3 at entry 4, a pending Buy of 5 more base units at
quote 10; second conjunct at `s1 = 2, p1 = 6, s2 = 2, p2 = 8`. -/
def c2DemoState : TrenchState :=
  { orders := [("W2", { twoFillOrder "W2" 5 with amount_quote := 50 })]
    positions := [(1, [{ user_id := 1, pair := "A/B", side := OrderSide.buy,
                         size := 3, entry_price := 4, updated_at := 0 }])]
    balances := []
    order_id_counter := 1
    rate_limit := []
    mock_prices := [("A/B", 10)]
    limit_orders := [] }

theorem C2_weighted_average_entry_witness :
    (∃ p', findPos ((dlookup (_trench_fill_order 9 "W2" c2DemoState).positions 1).getD [])
        "A/B" OrderSide.buy = some p' ∧
      p'.size = 3 + 5 ∧
      p'.entry_price = Int.fdiv (4 * 3 + 10 * 5) (3 + 5)) ∧
    (∃ p', findPos ((dlookup
          (_trench_fill_order 2 "o2"
            (trench_set_mock_price "A/B" 8
              (_trench_fill_order 1 "o1" (twoFillStart 2 6 2)))).positions 1).getD [])
        "A/B" OrderSide.buy = some p' ∧
      p'.size = 2 + 2 ∧
      p'.entry_price = Int.fdiv (6 * 2 + 8 * 2) (2 + 2)) := by
  constructor
  · exact C2_weighted_average_entry.1 9 "W2" c2DemoState
      { twoFillOrder "W2" 5 with amount_quote := 50 }
      { user_id := 1, pair := "A/B", side := OrderSide.buy,
        size := 3, entry_price := 4, updated_at := 0 }
      (by decide) (by decide) (by decide) (by decide)
  · exact C2_weighted_average_entry.2 2 6 2 8 (by decide) (by decide)

-- ---------------------------------------------------------------------------
-- C3: idempotence of the fill algorithm
-- ---------------------------------------------------------------------------

/-- C3.  The fill algorithm is idempotent.  First conjunct: on an order
whose status is not `PENDING` the fill is a strict no-op — the whole
state (orders with their status/filledAmount/fillPrice, positions,
balances) is returned unchanged.  Second conjunct: for every order id,
every state and any two call times, `fill(fill(o)) = fill(o)` — the
second application hits the `PENDING` guard and changes nothing. -/
theorem C3_fill_idempotent :
    (∀ (now : Int) (oid : String) (s : TrenchState) (o : TrenchOrder),
      dlookup s.orders oid = some o → o.status ≠ OrderStatus.pending →
      _trench_fill_order now oid s = s) ∧
    (∀ (now1 now2 : Int) (oid : String) (s : TrenchState),
      _trench_fill_order now2 oid (_trench_fill_order now1 oid s) =
        _trench_fill_order now1 oid s) := by
  refine ⟨fill_of_nonpending, ?_⟩
  intro now1 now2 oid s
  cases ho : dlookup s.orders oid with
  | none =>
    rw [fill_of_lookup_none now1 oid s ho, fill_of_lookup_none now2 oid s ho]
  | some o =>
    by_cases hp : o.status = OrderStatus.pending
    · rw [fill_of_pending now1 oid s o ho hp]
      apply fill_of_nonpending now2 oid _ (filledOrder now1 (_trench_get_mock_price s o.pair) o)
      · exact dlookup_dinsert_self _ _ _
      · simp [filledOrder]
    · rw [fill_of_nonpending now1 oid s o ho hp]
      exact fill_of_nonpending now2 oid s o ho hp

/-- Witness for C3's hypothesis-bearing first conjunct: filling an
already-`FILLED` order leaves the state untouched. -/
def c3DemoState : TrenchState :=
  { orders := [("W3", { twoFillOrder "W3" 5 with status := OrderStatus.filled })]
    positions := []
    balances := []
    order_id_counter := 1
    rate_limit := []
    mock_prices := [("A/B", 10)]
    limit_orders := [] }

theorem C3_fill_idempotent_witness :
    _trench_fill_order 4 "W3" c3DemoState = c3DemoState ∧
    _trench_fill_order 5 "W3" (_trench_fill_order 4 "W3" c3DemoState) =
      _trench_fill_order 4 "W3" c3DemoState :=
  ⟨C3_fill_idempotent.1 4 "W3" c3DemoState
      { twoFillOrder "W3" 5 with status := OrderStatus.filled }
      (by decide) (by decide),
   C3_fill_idempotent.2 4 5 "W3" c3DemoState⟩

-- ---------------------------------------------------------------------------
-- C5: cancel and the pending-limit working set
-- ---------------------------------------------------------------------------

/-- C5 (amended).  A successful owner cancel flips the order to
`CANCELLED` and stamps `updated_at`, but performs NO removal from the
pending-limit working set: `_trench_limit_orders` is exactly what it was
before the call.  (The cancelled order lingers there until the next
sweep's final filter purges non-`PENDING` orders.) -/
theorem C5_cancel_leaves_working_set
    (now user_id : Int) (oid : String) (s : TrenchState)
    (o' : TrenchOrder) (s' : TrenchState)
    (h : trench_cancel_order now user_id oid s = Except.ok (o', s')) :
    o'.status = OrderStatus.cancelled ∧
    o'.updated_at = now ∧
    dlookup s'.orders oid = some o' ∧
    s'.limit_orders = s.limit_orders := by
  unfold trench_cancel_order at h
  cases hrl : _trench_check_rate_limit now user_id s.rate_limit with
  | mk err rl2 =>
    rw [hrl] at h
    cases err with
    | some e => exact Except.noConfusion h
    | none =>
      dsimp only at h
      cases hor : dlookup s.orders oid with
      | none =>
        rw [hor] at h
        exact Except.noConfusion h
      | some o =>
        rw [hor] at h
        dsimp only at h
        by_cases hne : o.user_id ≠ user_id
        · rw [if_pos hne] at h
          exact Except.noConfusion h
        · rw [if_neg hne] at h
          by_cases hfil : o.status = OrderStatus.filled
          · rw [if_pos hfil] at h
            exact Except.noConfusion h
          · rw [if_neg hfil] at h
            by_cases hcan : o.status = OrderStatus.cancelled
            · rw [if_pos hcan] at h
              exact Except.noConfusion h
            · rw [if_neg hcan] at h
              injection h with hpair
              have h1 := congrArg Prod.fst hpair
              have h2 := congrArg Prod.snd hpair
              dsimp only at h1 h2
              rw [← h1, ← h2]
              exact ⟨rfl, rfl, dlookup_dinsert_self _ _ _, rfl⟩

/-- A state with a single pending limit order "L1" of user 1, present in
the pending-limit working set. -/
def c5DemoState : TrenchState :=
  { orders := [("L1",
      { order_id := "L1", user_id := 1, chat_id := 1, pair := "TRCH/ETH",
        side := OrderSide.buy, order_type := OrderType.limit,
        amount_quote := 5, amount_base := 5, price_limit := some 1,
        status := OrderStatus.pending, created_at := 0, updated_at := 0,
        fill_price := none, filled_amount := 0 })]
    positions := []
    balances := []
    order_id_counter := 1
    rate_limit := []
    mock_prices := [("TRCH/ETH", 2)]
    limit_orders := ["L1"] }

/-- The order "L1" as the cancel at time 9 returns it. -/
def c5CancelledOrder : TrenchOrder :=
  { order_id := "L1", user_id := 1, chat_id := 1, pair := "TRCH/ETH",
    side := OrderSide.buy, order_type := OrderType.limit,
    amount_quote := 5, amount_base := 5, price_limit := some 1,
    status := OrderStatus.cancelled, created_at := 0, updated_at := 9,
    fill_price := none, filled_amount := 0 }

/-- The full state the cancel at time 9 leaves behind. -/
def c5AfterState : TrenchState :=
  { c5DemoState with
    rate_limit := [(1, [9])]
    orders := [("L1", c5CancelledOrder)] }

/-- C5 counterexample to the claim as stated: the owner's cancel of the
pending limit order "L1" succeeds (the order comes back `CANCELLED`,
`updated_at` stamped), yet immediately after the call "L1" is STILL a
member of the pending-limit working set — the claimed removal does not
happen. -/
theorem C5_cancel_counterexample :
    trench_cancel_order 9 1 "L1" c5DemoState =
      Except.ok (c5CancelledOrder, c5AfterState) ∧
    "L1" ∈ c5AfterState.limit_orders := by
  constructor
  · rfl
  · decide

/-- Witness for the amended C5 theorem at the same concrete input. -/
theorem C5_cancel_leaves_working_set_witness :
    c5CancelledOrder.status = OrderStatus.cancelled ∧
    c5CancelledOrder.updated_at = 9 ∧
    dlookup c5AfterState.orders "L1" = some c5CancelledOrder ∧
    c5AfterState.limit_orders = c5DemoState.limit_orders :=
  C5_cancel_leaves_working_set 9 1 "L1" c5DemoState c5CancelledOrder c5AfterState (by rfl)

-- ---------------------------------------------------------------------------
-- C7: placement precondition order
-- ---------------------------------------------------------------------------

/-- The rate gate's failure condition: at least
`TRENCH_RATE_LIMIT_PER_MIN` timestamps in the trailing 60 seconds. -/
def rateWindowFull (now user_id : Int) (rl : Dict Int (List Int)) : Prop :=
  TRENCH_RATE_LIMIT_PER_MIN ≤
    (((dlookup rl user_id).getD []).filter (fun t => decide (now - t < 60))).length

instance (now user_id : Int) (rl : Dict Int (List Int)) :
    Decidable (rateWindowFull now user_id rl) := by
  unfold rateWindowFull
  infer_instance

theorem checkRate_fst (now user_id : Int) (rl : Dict Int (List Int)) :
    (_trench_check_rate_limit now user_id rl).1 =
      if rateWindowFull now user_id rl then some TrenchError.rateLimitExceeded
      else none := by
  unfold _trench_check_rate_limit
  dsimp only
  cases h : dlookup rl user_id with
  | none =>
    rw [dlookup_dinsert_self]
    simp [rateWindowFull, h, TRENCH_RATE_LIMIT_PER_MIN]
  | some l =>
    have hw : rateWindowFull now user_id rl ↔
        TRENCH_RATE_LIMIT_PER_MIN ≤
          (l.filter (fun t => decide (now - t < 60))).length := by
      rw [rateWindowFull, h]
      exact Iff.rfl
    rw [h]
    dsimp only [Option.getD_some]
    split_ifs with h1 h2 h2
    · rfl
    · exact absurd (hw.mpr h1) h2
    · exact absurd (hw.mp h2) h1
    · rfl

theorem pendingCount_rate_irrelevant (user_id : Int) (s : TrenchState)
    (rl2 : Dict Int (List Int)) :
    pendingCount user_id { s with rate_limit := rl2 } = pendingCount user_id s := rfl

/-- C7.  Both placement entry points check their preconditions in the
fixed order rate gate → pair validity → per-user pending cap → amount
positivity, and the first failing check decides the error.  Conjuncts
1-4 cover `trench_place_order`, conjuncts 5-8 `trench_place_limit_order`
(whose amount check also requires `price_limit > 0`).  Conjunct 2
applies for EVERY `amount_quote` (so an unknown pair plus a non-positive
amount yields `InvalidPair`), and conjunct 3 applies as soon as the user
has `TRENCH_MAX_ORDERS_PER_USER = 50` pending orders (so a 51st order
request yields `MaxOrdersExceeded`). -/
theorem C7_placement_check_order :
    (∀ (now user_id chat_id : Int) (pair : String) (side : OrderSide)
        (amount_quote : Int) (order_type : OrderType) (price_limit : Option Int)
        (s : TrenchState),
      rateWindowFull now user_id s.rate_limit →
      trench_place_order now user_id chat_id pair side amount_quote order_type price_limit s
        = Except.error TrenchError.rateLimitExceeded) ∧
    (∀ (now user_id chat_id : Int) (pair : String) (side : OrderSide)
        (amount_quote : Int) (order_type : OrderType) (price_limit : Option Int)
        (s : TrenchState),
      ¬ rateWindowFull now user_id s.rate_limit →
      dlookup s.mock_prices pair = none →
      trench_place_order now user_id chat_id pair side amount_quote order_type price_limit s
        = Except.error TrenchError.invalidPair) ∧
    (∀ (now user_id chat_id : Int) (pair : String) (side : OrderSide)
        (amount_quote : Int) (order_type : OrderType) (price_limit : Option Int)
        (s : TrenchState),
      ¬ rateWindowFull now user_id s.rate_limit →
      (dlookup s.mock_prices pair).isSome = true →
      TRENCH_MAX_ORDERS_PER_USER ≤ pendingCount user_id s →
      trench_place_order now user_id chat_id pair side amount_quote order_type price_limit s
        = Except.error TrenchError.maxOrdersExceeded) ∧
    (∀ (now user_id chat_id : Int) (pair : String) (side : OrderSide)
        (amount_quote : Int) (order_type : OrderType) (price_limit : Option Int)
        (s : TrenchState),
      ¬ rateWindowFull now user_id s.rate_limit →
      (dlookup s.mock_prices pair).isSome = true →
      pendingCount user_id s < TRENCH_MAX_ORDERS_PER_USER →
      amount_quote ≤ 0 →
      trench_place_order now user_id chat_id pair side amount_quote order_type price_limit s
        = Except.error TrenchError.zeroAmount) ∧
    (∀ (now user_id chat_id : Int) (pair : String) (side : OrderSide)
        (amount_quote price_limit : Int) (s : TrenchState),
      rateWindowFull now user_id s.rate_limit →
      trench_place_limit_order now user_id chat_id pair side amount_quote price_limit s
        = Except.error TrenchError.rateLimitExceeded) ∧
    (∀ (now user_id chat_id : Int) (pair : String) (side : OrderSide)
        (amount_quote price_limit : Int) (s : TrenchState),
      ¬ rateWindowFull now user_id s.rate_limit →
      dlookup s.mock_prices pair = none →
      trench_place_limit_order now user_id chat_id pair side amount_quote price_limit s
        = Except.error TrenchError.invalidPair) ∧
    (∀ (now user_id chat_id : Int) (pair : String) (side : OrderSide)
        (amount_quote price_limit : Int) (s : TrenchState),
      ¬ rateWindowFull now user_id s.rate_limit →
      (dlookup s.mock_prices pair).isSome = true →
      TRENCH_MAX_ORDERS_PER_USER ≤ pendingCount user_id s →
      trench_place_limit_order now user_id chat_id pair side amount_quote price_limit s
        = Except.error TrenchError.maxOrdersExceeded) ∧
    (∀ (now user_id chat_id : Int) (pair : String) (side : OrderSide)
        (amount_quote price_limit : Int) (s : TrenchState),
      ¬ rateWindowFull now user_id s.rate_limit →
      (dlookup s.mock_prices pair).isSome = true →
      pendingCount user_id s < TRENCH_MAX_ORDERS_PER_USER →
      (amount_quote ≤ 0 ∨ price_limit ≤ 0) →
      trench_place_limit_order now user_id chat_id pair side amount_quote price_limit s
        = Except.error TrenchError.zeroAmount) := by
  refine ⟨?_, ?_, ?_, ?_, ?_, ?_, ?_, ?_⟩
  · intro now user_id chat_id pair side aq ot pl s hfull
    have h1 := checkRate_fst now user_id s.rate_limit
    rw [if_pos hfull] at h1
    unfold trench_place_order
    rcases hrl : _trench_check_rate_limit now user_id s.rate_limit with ⟨err, rl2⟩
    rw [hrl] at h1
    dsimp only at h1
    rw [h1]
  · intro now user_id chat_id pair side aq ot pl s hfull hpair
    have h1 := checkRate_fst now user_id s.rate_limit
    rw [if_neg hfull] at h1
    unfold trench_place_order
    rcases hrl : _trench_check_rate_limit now user_id s.rate_limit with ⟨err, rl2⟩
    rw [hrl] at h1
    dsimp only at h1
    rw [h1]
    dsimp only
    rw [hpair]
  · intro now user_id chat_id pair side aq ot pl s hfull hpair hcap
    have h1 := checkRate_fst now user_id s.rate_limit
    rw [if_neg hfull] at h1
    unfold trench_place_order
    rcases hrl : _trench_check_rate_limit now user_id s.rate_limit with ⟨err, rl2⟩
    rw [hrl] at h1
    dsimp only at h1
    rw [h1]
    dsimp only
    cases hpr : dlookup s.mock_prices pair with
    | none => rw [hpr] at hpair; simp at hpair
    | some p0 =>
      dsimp only
      rw [if_pos]
      exact hcap
  · intro now user_id chat_id pair side aq ot pl s hfull hpair hcap hzero
    have h1 := checkRate_fst now user_id s.rate_limit
    rw [if_neg hfull] at h1
    unfold trench_place_order
    rcases hrl : _trench_check_rate_limit now user_id s.rate_limit with ⟨err, rl2⟩
    rw [hrl] at h1
    dsimp only at h1
    rw [h1]
    dsimp only
    cases hpr : dlookup s.mock_prices pair with
    | none => rw [hpr] at hpair; simp at hpair
    | some p0 =>
      dsimp only
      rw [if_neg (by exact Nat.not_le.mpr hcap), if_pos hzero]
  · intro now user_id chat_id pair side aq pl s hfull
    have h1 := checkRate_fst now user_id s.rate_limit
    rw [if_pos hfull] at h1
    unfold trench_place_limit_order
    rcases hrl : _trench_check_rate_limit now user_id s.rate_limit with ⟨err, rl2⟩
    rw [hrl] at h1
    dsimp only at h1
    rw [h1]
  · intro now user_id chat_id pair side aq pl s hfull hpair
    have h1 := checkRate_fst now user_id s.rate_limit
    rw [if_neg hfull] at h1
    unfold trench_place_limit_order
    rcases hrl : _trench_check_rate_limit now user_id s.rate_limit with ⟨err, rl2⟩
    rw [hrl] at h1
    dsimp only at h1
    rw [h1]
    dsimp only
    rw [hpair]
  · intro now user_id chat_id pair side aq pl s hfull hpair hcap
    have h1 := checkRate_fst now user_id s.rate_limit
    rw [if_neg hfull] at h1
    unfold trench_place_limit_order
    rcases hrl : _trench_check_rate_limit now user_id s.rate_limit with ⟨err, rl2⟩
    rw [hrl] at h1
    dsimp only at h1
    rw [h1]
    dsimp only
    cases hpr : dlookup s.mock_prices pair with
    | none => rw [hpr] at hpair; simp at hpair
    | some p0 =>
      dsimp only
      rw [if_pos]
      exact hcap
  · intro now user_id chat_id pair side aq pl s hfull hpair hcap hzero
    have h1 := checkRate_fst now user_id s.rate_limit
    rw [if_neg hfull] at h1
    unfold trench_place_limit_order
    rcases hrl : _trench_check_rate_limit now user_id s.rate_limit with ⟨err, rl2⟩
    rw [hrl] at h1
    dsimp only at h1
    rw [h1]
    dsimp only
    cases hpr : dlookup s.mock_prices pair with
    | none => rw [hpr] at hpair; simp at hpair
    | some p0 =>
      dsimp only
      rw [if_neg (by exact Nat.not_le.mpr hcap), if_pos hzero]

/-- A pending stub order used to populate a user's 50-order backlog. -/
def pendingStub (i : Nat) : TrenchOrder :=
  { order_id := toString i, user_id := 1, chat_id := 1, pair := "TRCH/ETH",
    side := OrderSide.buy, order_type := OrderType.market,
    amount_quote := 1, amount_base := 1, price_limit := none,
    status := OrderStatus.pending, created_at := 0, updated_at := 0,
    fill_price := none, filled_amount := 0 }

/-- User 1 already has `TRENCH_RATE_LIMIT_PER_MIN = 20` requests in the
rate window. -/
def rateFullState : TrenchState :=
  { initialTrenchState with rate_limit := [(1, List.replicate 20 0)] }

/-- User 1 already has `TRENCH_MAX_ORDERS_PER_USER = 50` pending
orders. -/
def fiftyPendingState : TrenchState :=
  { initialTrenchState with
    orders := (List.range 50).map (fun i => (toString i, pendingStub i)) }

theorem C7_placement_check_order_witness :
    trench_place_order 0 1 1 "TRCH/ETH" OrderSide.buy 5 OrderType.market none rateFullState
      = Except.error TrenchError.rateLimitExceeded ∧
    trench_place_order 0 1 1 "NOPE/X" OrderSide.buy (-3) OrderType.market none initialTrenchState
      = Except.error TrenchError.invalidPair ∧
    trench_place_order 0 1 1 "TRCH/ETH" OrderSide.buy 5 OrderType.market none fiftyPendingState
      = Except.error TrenchError.maxOrdersExceeded ∧
    trench_place_order 0 1 1 "TRCH/ETH" OrderSide.buy 0 OrderType.market none initialTrenchState
      = Except.error TrenchError.zeroAmount ∧
    trench_place_limit_order 0 1 1 "TRCH/ETH" OrderSide.buy 5 3 rateFullState
      = Except.error TrenchError.rateLimitExceeded ∧
    trench_place_limit_order 0 1 1 "NOPE/X" OrderSide.buy (-3) 3 initialTrenchState
      = Except.error TrenchError.invalidPair ∧
    trench_place_limit_order 0 1 1 "TRCH/ETH" OrderSide.buy 5 3 fiftyPendingState
      = Except.error TrenchError.maxOrdersExceeded ∧
    trench_place_limit_order 0 1 1 "TRCH/ETH" OrderSide.buy 5 0 initialTrenchState
      = Except.error TrenchError.zeroAmount :=
  ⟨C7_placement_check_order.1 0 1 1 "TRCH/ETH" OrderSide.buy 5 OrderType.market none
      rateFullState (by decide),
   C7_placement_check_order.2.1 0 1 1 "NOPE/X" OrderSide.buy (-3) OrderType.market none
      initialTrenchState (by decide) (by decide),
   C7_placement_check_order.2.2.1 0 1 1 "TRCH/ETH" OrderSide.buy 5 OrderType.market none
      fiftyPendingState (by decide) (by decide) (by decide),
   C7_placement_check_order.2.2.2.1 0 1 1 "TRCH/ETH" OrderSide.buy 0 OrderType.market none
      initialTrenchState (by decide) (by decide) (by decide) (by decide),
   C7_placement_check_order.2.2.2.2.1 0 1 1 "TRCH/ETH" OrderSide.buy 5 3
      rateFullState (by decide),
   C7_placement_check_order.2.2.2.2.2.1 0 1 1 "NOPE/X" OrderSide.buy (-3) 3
      initialTrenchState (by decide) (by decide),
   C7_placement_check_order.2.2.2.2.2.2.1 0 1 1 "TRCH/ETH" OrderSide.buy 5 3
      fiftyPendingState (by decide) (by decide) (by decide),
   C7_placement_check_order.2.2.2.2.2.2.2 0 1 1 "TRCH/ETH" OrderSide.buy 5 0
      initialTrenchState (by decide) (by decide) (by decide) (by decide)⟩

-- ---------------------------------------------------------------------------
-- C10: the fill path's price lookup is total (silently defaults)
-- ---------------------------------------------------------------------------

/-- A snapshot carrying one pending order for an arbitrary pair string —
`trench_import_state` never validates the pair against the price
table. -/
def c10Snap (pr : String) : Snapshot :=
  { orders := [{ order_id := some "R1", user_id := some 1, pair := some pr,
                 side := some (PyField.str "buy"),
                 status := some (PyField.str "pending"),
                 amount_quote := some 4, amount_base := some 4,
                 created_at := some 0 }]
    balances := []
    positions := []
    order_id_counter := 1 }

/-- The order the import of `c10Snap pr` reconstructs. -/
def c10Order (pr : String) : TrenchOrder :=
  { order_id := "R1", user_id := 1, chat_id := 0, pair := pr,
    side := OrderSide.buy, order_type := OrderType.market,
    amount_quote := 4, amount_base := 4, price_limit := none,
    status := OrderStatus.pending, created_at := 0, updated_at := 0,
    fill_price := none, filled_amount := 0 }

/-- C10.  For a pair absent from the price table: (1) the internal
lookup `_trench_get_mock_price` silently returns the default
`TRENCH_SCALE` (= 1 * 10^18); (2) the public `trench_get_price` raises
`InvalidPair` for the same pair; (3) filling a pending order with such a
pair raises nothing and marks the order `FILLED` at `fill_price =
TRENCH_SCALE`; (4) such orders are reachable, because import
reconstructs a pending order with any pair string without consulting the
price table. -/
theorem C10_fill_unknown_pair_defaults :
    (∀ (s : TrenchState) (pair : String), dlookup s.mock_prices pair = none →
      _trench_get_mock_price s pair = TRENCH_SCALE) ∧
    (∀ (s : TrenchState) (pair : String), dlookup s.mock_prices pair = none →
      trench_get_price s pair = Except.error TrenchError.invalidPair) ∧
    (∀ (now : Int) (oid : String) (s : TrenchState) (o : TrenchOrder),
      dlookup s.orders oid = some o → o.status = OrderStatus.pending →
      dlookup s.mock_prices o.pair = none →
      dlookup (_trench_fill_order now oid s).orders oid =
        some (filledOrder now TRENCH_SCALE o)) ∧
    (∀ pr : String,
      (trench_import_state 0 (c10Snap pr) initialTrenchState).1 = none ∧
      dlookup (trench_import_state 0 (c10Snap pr) initialTrenchState).2.orders "R1" =
        some (c10Order pr)) := by
  refine ⟨?_, ?_, ?_, ?_⟩
  · intro s pair h
    simp [_trench_get_mock_price, h]
  · intro s pair h
    simp [trench_get_price, h]
  · intro now oid s o ho hp hpair
    rw [fill_of_pending now oid s o ho hp]
    have hpr : _trench_get_mock_price s o.pair = TRENCH_SCALE := by
      simp [_trench_get_mock_price, hpair]
    rw [hpr]
    exact dlookup_dinsert_self _ _ _
  · intro pr
    exact ⟨rfl, rfl⟩

/-- A pending order whose pair "ZZ/ZZ" is not in the seeded price
table. -/
def c10DemoState : TrenchState :=
  { initialTrenchState with orders := [("U1", c10Order "ZZ/ZZ")] }

theorem C10_fill_unknown_pair_defaults_witness :
    _trench_get_mock_price initialTrenchState "ZZ/ZZ" = TRENCH_SCALE ∧
    trench_get_price initialTrenchState "ZZ/ZZ" = Except.error TrenchError.invalidPair ∧
    dlookup (_trench_fill_order 3 "U1" c10DemoState).orders "U1" =
      some (filledOrder 3 TRENCH_SCALE (c10Order "ZZ/ZZ")) ∧
    ((trench_import_state 0 (c10Snap "ZZ/ZZ") initialTrenchState).1 = none ∧
      dlookup (trench_import_state 0 (c10Snap "ZZ/ZZ") initialTrenchState).2.orders "R1" =
        some (c10Order "ZZ/ZZ")) :=
  ⟨C10_fill_unknown_pair_defaults.1 initialTrenchState "ZZ/ZZ" (by decide),
   C10_fill_unknown_pair_defaults.2.1 initialTrenchState "ZZ/ZZ" (by decide),
   C10_fill_unknown_pair_defaults.2.2.1 3 "U1" c10DemoState (c10Order "ZZ/ZZ")
     (by decide) (by decide) (by decide),
   C10_fill_unknown_pair_defaults.2.2.2 "ZZ/ZZ"⟩

-- ---------------------------------------------------------------------------
-- C4: import is NOT atomic on failure
-- ---------------------------------------------------------------------------

/-- A non-trivial prior in-memory state: one filled order, one funded
balance, one position, a pending-limit entry and a nonzero counter. -/
def c4PriorState : TrenchState :=
  { orders := [("A1", { c10Order "TRCH/ETH" with status := OrderStatus.filled })]
    positions := [(1, [{ user_id := 1, pair := "TRCH/ETH", side := OrderSide.buy,
                         size := 4, entry_price := 2, updated_at := 0 }])]
    balances := [(1, { user_id := 1, quote_balance := 777, base_balance := 4,
                       updated_at := 0 })]
    order_id_counter := 5
    rate_limit := []
    mock_prices := [("TRCH/ETH", 2)]
    limit_orders := [] }

/-- A snapshot whose single order record has the malformed side string
"bogus": `OrderSide("bogus")` raises `ValueError` inside the import
loop. -/
def c4BadSnapshot : Snapshot :=
  { orders := [{ order_id := some "B1", user_id := some 1,
                 pair := some "TRCH/ETH",
                 side := some (PyField.str "bogus"),
                 status := some (PyField.str "pending"),
                 amount_quote := some 5, amount_base := some 5,
                 created_at := some 0 }]
    balances := []
    positions := []
    order_id_counter := 9 }

/-- C4 (the claim is right; the code is wrong).  `trench_import_state`
clears the orders, balances, positions and pending-limit stores BEFORE
parsing a single record, so when a malformed record aborts the import
the prior in-memory state has already been destroyed: on `c4BadSnapshot`
the import fails with `ValueError`, yet afterwards the orders, balances
and positions registries are empty and the id counter keeps its prior
value — not the atomic "prior state untouched" the spec requires. -/
theorem C4_import_not_atomic :
    (trench_import_state 0 c4BadSnapshot c4PriorState).1 = some ImportErr.valueError ∧
    (trench_import_state 0 c4BadSnapshot c4PriorState).2 ≠ c4PriorState ∧
    (trench_import_state 0 c4BadSnapshot c4PriorState).2.orders = [] ∧
    (trench_import_state 0 c4BadSnapshot c4PriorState).2.balances = [] ∧
    (trench_import_state 0 c4BadSnapshot c4PriorState).2.positions = [] := by
  refine ⟨rfl, ?_, rfl, rfl, rfl⟩
  decide

-- ---------------------------------------------------------------------------
-- C9: the seeded price table is not all fixed-point integers
-- ---------------------------------------------------------------------------

/-- C9 (the claim is right; the code is wrong).  The seeded price table
maps "TRCH/ETH" to the Python float `0.0025 * TRENCH_SCALE` (exactly
2500000000000000.0) even though the table is annotated `Dict[str, int]`
and the spec requires every price to be an integer scaled by 10^18 — so
the table does NOT contain only fixed-point integers, and every amount
derived from that entry (`amount_base`, balances) becomes a float in
Python. -/
theorem C9_seeded_price_is_float :
    dlookup seededMockPrices "TRCH/ETH" = some (PyNum.floatVal 2500000000000000) ∧
    ¬ (seededMockPrices.all (fun kv => kv.2.isInt) = true) := by
  constructor
  · decide
  · decide

-- ---------------------------------------------------------------------------
-- C6: snapshot round-trip and zero-size positions
-- ---------------------------------------------------------------------------

theorem dinsert_dinsert {K V : Type} [DecidableEq K]
    (d : Dict K V) (k : K) (v w : V) :
    dinsert (dinsert d k v) k w = dinsert d k w := by
  induction d with
  | nil => simp [dinsert]
  | cons hd tl ih =>
    by_cases h : k = hd.1
    · simp [dinsert, h]
    · simp [dinsert, h, ih]

theorem dinsert_of_lookup_none {K V : Type} [DecidableEq K]
    (d : Dict K V) (k : K) (v : V) (h : dlookup d k = none) :
    dinsert d k v = d ++ [(k, v)] := by
  induction d with
  | nil => simp [dinsert]
  | cons hd tl ih =>
    by_cases hk : k = hd.1
    · rw [dlookup, if_pos hk] at h
      exact Option.noConfusion h
    · rw [dlookup, if_neg hk] at h
      simp [dinsert, hk, ih h]

theorem dlookup_append_none {K V : Type} [DecidableEq K]
    (d1 d2 : Dict K V) (k : K) (h : dlookup d1 k = none) :
    dlookup (d1 ++ d2) k = dlookup d2 k := by
  induction d1 with
  | nil => simp
  | cons hd tl ih =>
    by_cases hk : k = hd.1
    · rw [dlookup, if_pos hk] at h
      exact Option.noConfusion h
    · rw [dlookup, if_neg hk] at h
      rw [List.cons_append, dlookup, if_neg hk]
      exact ih h

theorem parseSide_sideStr (side : OrderSide) :
    parseSide (some (PyField.str (sideStr side))) = Except.ok side := by
  cases side <;> rfl

theorem parseStatus_statusStr (st : OrderStatus) :
    parseStatus (some (PyField.str (statusStr st))) = Except.ok st := by
  cases st <;> rfl

theorem snapLoadOrders_serialized (now : Int) (l : List (String × TrenchOrder)) :
    ∀ s : TrenchState,
    (snapLoadOrders now (l.map (fun kv => serOrder kv.2)) s).1 = none ∧
    (snapLoadOrders now (l.map (fun kv => serOrder kv.2)) s).2.positions = s.positions ∧
    (snapLoadOrders now (l.map (fun kv => serOrder kv.2)) s).2.balances = s.balances := by
  induction l with
  | nil => intro s; exact ⟨rfl, rfl, rfl⟩
  | cons kv rest ih =>
    intro s
    rw [List.map_cons, snapLoadOrders, serOrder]
    dsimp only
    rw [parseSide_sideStr, parseStatus_statusStr]
    exact ih _

theorem snapLoadBalances_serialized (now : Int)
    (l : List (Int × TrenchUserBalance)) :
    ∀ s : TrenchState,
    (snapLoadBalances now
      (l.map (fun kv => (some kv.1,
        ({ quote := some kv.2.quote_balance, base := some kv.2.base_balance } : SnapBalance)))) s).1
      = none ∧
    (snapLoadBalances now
      (l.map (fun kv => (some kv.1,
        ({ quote := some kv.2.quote_balance, base := some kv.2.base_balance } : SnapBalance)))) s).2.positions
      = s.positions := by
  induction l with
  | nil => intro s; exact ⟨rfl, rfl⟩
  | cons kv rest ih =>
    intro s
    rw [List.map_cons, snapLoadBalances]
    exact ih _

/-- The position `trench_import_state` reconstructs from a serialized
position record: `pair`, `side`, `size`, `entry_price` survive; the
`user_id` is re-derived from the map key and `updated_at` is
restamped. -/
def importedPos (now uid : Int) (p : TrenchPosition) : TrenchPosition :=
  { user_id := uid, pair := p.pair, side := p.side, size := p.size,
    entry_price := p.entry_price, updated_at := now }

theorem dinsert_lookup_self {K V : Type} [DecidableEq K]
    (d : Dict K V) (k : K) (v : V) (h : dlookup d k = some v) :
    dinsert d k v = d := by
  induction d with
  | nil => exact Option.noConfusion h
  | cons hd tl ih =>
    by_cases hk : k = hd.1
    · rw [dlookup, if_pos hk] at h
      have hv : v = hd.2 := (Option.some.injEq _ _).mp h.symm
      rw [dinsert, if_pos hk, hv, hk]
    · rw [dlookup, if_neg hk] at h
      rw [dinsert, if_neg hk, ih h]

theorem snapLoadPosList_serialized (now uid : Int) (pl : List TrenchPosition) :
    ∀ (s : TrenchState) (acc : List TrenchPosition),
    dlookup s.positions uid = some acc →
    (snapLoadPosList now uid (pl.map serPosition) s).1 = none ∧
    (snapLoadPosList now uid (pl.map serPosition) s).2 =
      { s with
        positions := dinsert s.positions uid (acc ++ pl.map (importedPos now uid)) } := by
  induction pl with
  | nil =>
    intro s acc h
    refine ⟨rfl, ?_⟩
    dsimp only [snapLoadPosList]
    simp only [List.map_nil, List.append_nil]
    rw [dinsert_lookup_self _ _ _ h]
  | cons p rest ih =>
    intro s acc h
    rw [List.map_cons, snapLoadPosList, serPosition]
    dsimp only
    rw [parseSide_sideStr]
    dsimp only
    rw [h]
    dsimp only [Option.getD_some]
    have hnext := ih
      { s with
        positions := dinsert s.positions uid (acc ++ [importedPos now uid p]) }
      (acc ++ [importedPos now uid p]) (dlookup_dinsert_self _ _ _)
    refine ⟨hnext.1, Eq.trans hnext.2 ?_⟩
    dsimp only
    rw [dinsert_dinsert, List.append_assoc]
    rfl

theorem snapLoadPositions_serialized (now : Int) :
    ∀ (l : List (Int × List TrenchPosition)) (s : TrenchState),
    (∀ kv ∈ l, dlookup s.positions kv.1 = none) →
    (l.map Prod.fst).Nodup →
    (snapLoadPositions now (l.map (fun kv =>
        ((some kv.1 : Option Int),
          (kv.2.filter (fun p => decide (p.size ≠ 0))).map serPosition))) s).1 = none ∧
    (snapLoadPositions now (l.map (fun kv =>
        ((some kv.1 : Option Int),
          (kv.2.filter (fun p => decide (p.size ≠ 0))).map serPosition))) s).2 =
      { s with
        positions := s.positions ++ l.map (fun kv =>
          (kv.1, (kv.2.filter (fun p => decide (p.size ≠ 0))).map (importedPos now kv.1))) } := by
  intro l
  induction l with
  | nil =>
    intro s hfresh hnodup
    refine ⟨rfl, ?_⟩
    dsimp only [snapLoadPositions]
    simp only [List.map_nil, List.append_nil]
  | cons kv rest ih =>
    intro s hfresh hnodup
    rw [List.map_cons]
    rw [snapLoadPositions]
    have hone := snapLoadPosList_serialized now kv.1
      ((kv.2.filter (fun p => decide (p.size ≠ 0))))
      { s with positions := dinsert s.positions kv.1 [] }
      [] (dlookup_dinsert_self _ _ _)
    have hpair : snapLoadPosList now kv.1
        ((kv.2.filter (fun p => decide (p.size ≠ 0))).map serPosition)
        { s with positions := dinsert s.positions kv.1 [] } =
        (none,
          { s with
            positions := s.positions ++
              [(kv.1, (kv.2.filter (fun p => decide (p.size ≠ 0))).map (importedPos now kv.1))] }) := by
      refine Prod.ext hone.1 (Eq.trans hone.2 ?_)
      dsimp only
      rw [dinsert_dinsert, List.nil_append,
        dinsert_of_lookup_none _ _ _ (hfresh kv (List.mem_cons_self _ _))]
    rw [hpair]
    dsimp only
    have hrest := ih
      { s with
        positions := s.positions ++
          [(kv.1, (kv.2.filter (fun p => decide (p.size ≠ 0))).map (importedPos now kv.1))] }
      (by
        intro kv' hkv'
        dsimp only
        rw [dlookup_append_none _ _ _ (hfresh kv' (List.mem_cons_of_mem _ hkv'))]
        have hne : kv'.1 ≠ kv.1 := by
          intro hcontra
          have : kv.1 ∈ rest.map Prod.fst :=
            hcontra ▸ List.mem_map_of_mem Prod.fst hkv'
          rw [List.map_cons] at hnodup
          exact (List.nodup_cons.mp hnodup).1 this
        rw [dlookup, if_neg hne]
        rfl)
      (by
        rw [List.map_cons] at hnodup
        exact (List.nodup_cons.mp hnodup).2)
    refine ⟨hrest.1, Eq.trans hrest.2 ?_⟩
    dsimp only
    rw [List.append_assoc]
    rfl

theorem pair_eta_fst {A B : Type} (p : A × B) {a : A} (h : p.1 = a) :
    p = (a, p.2) := Prod.ext h rfl

/-- C6 (amended).  `trench_export_state` serializes only the positions
with `size ≠ 0`, so zero-size positions do NOT round-trip: for every
state whose position map has distinct user keys, re-importing the export
succeeds and leaves as the positions store exactly the nonzero-size
positions of the original (with `pair`, `side`, `size`, `entry_price`
preserved; `user_id` re-derived from the map key and `updated_at`
restamped, per `importedPos`); every zero-size position is gone. -/
theorem C6_export_import_drops_zero_positions (now : Int) (s : TrenchState)
    (hnodup : (s.positions.map Prod.fst).Nodup) :
    (trench_import_state now (trench_export_state s) s).1 = none ∧
    (trench_import_state now (trench_export_state s) s).2.positions =
      s.positions.map (fun kv =>
        (kv.1, (kv.2.filter (fun p => decide (p.size ≠ 0))).map (importedPos now kv.1))) := by
  unfold trench_import_state
  dsimp only [trench_export_state]
  rw [pair_eta_fst _ (snapLoadOrders_serialized now s.orders _).1]
  dsimp only
  rw [pair_eta_fst _ (snapLoadBalances_serialized now s.balances _).1]
  dsimp only
  set sB := (snapLoadBalances now
      (List.map (fun kv => ((some kv.1 : Option Int),
        ({ quote := some kv.2.quote_balance, base := some kv.2.base_balance } : SnapBalance)))
        s.balances)
      (snapLoadOrders now (List.map (fun kv => serOrder kv.2) s.orders)
        ({ orders := [], positions := [], balances := [],
           order_id_counter := s.order_id_counter, rate_limit := s.rate_limit,
           mock_prices := s.mock_prices, limit_orders := [] } : TrenchState)).2).2 with hsB
  have hposB : sB.positions = [] := by
    rw [hsB, (snapLoadBalances_serialized now s.balances _).2,
      (snapLoadOrders_serialized now s.orders _).2.1]
  have hfresh : ∀ kv ∈ s.positions, dlookup sB.positions kv.1 = none := by
    intro kv hkv
    rw [hposB]
    rfl
  have hC := snapLoadPositions_serialized now s.positions sB hfresh hnodup
  rw [pair_eta_fst _ hC.1]
  dsimp only
  refine ⟨rfl, ?_⟩
  rw [hC.2]
  dsimp only
  rw [hposB, List.nil_append]

/-- A state holding exactly one position, of size 0 (a fully "closed"
position, which the spec says is retained in storage). -/
def c6ZeroPosState : TrenchState :=
  { orders := []
    positions := [(7, [{ user_id := 7, pair := "TRCH/ETH", side := OrderSide.buy,
                         size := 0, entry_price := 5, updated_at := 0 }])]
    balances := []
    order_id_counter := 0
    rate_limit := []
    mock_prices := [("TRCH/ETH", 2)]
    limit_orders := [] }

/-- C6 counterexample to the claim as stated: the export of a state
with a zero-size position serializes an EMPTY position list for that
user (`for p in plist if p.size != 0`), and after re-importing the
export the stored position is gone — zero-size positions do not
round-trip. -/
theorem C6_zero_position_counterexample :
    (trench_export_state c6ZeroPosState).positions = [(some 7, [])] ∧
    (trench_import_state 3 (trench_export_state c6ZeroPosState) c6ZeroPosState).1 = none ∧
    (trench_import_state 3 (trench_export_state c6ZeroPosState) c6ZeroPosState).2.positions
      = [(7, [])] := by
  refine ⟨rfl, rfl, rfl⟩

/-- A state mixing one zero-size and one nonzero position under one
user. -/
def c6DemoState : TrenchState :=
  { orders := []
    positions := [(1, [{ user_id := 1, pair := "TRCH/ETH", side := OrderSide.buy,
                         size := 0, entry_price := 5, updated_at := 0 },
                       { user_id := 1, pair := "TRCH/USDT", side := OrderSide.sell,
                         size := 6, entry_price := 9, updated_at := 0 }])]
    balances := []
    order_id_counter := 2
    rate_limit := []
    mock_prices := [("TRCH/ETH", 2)]
    limit_orders := [] }

theorem C6_export_import_drops_zero_positions_witness :
    (trench_import_state 3 (trench_export_state c6DemoState) c6DemoState).1 = none ∧
    (trench_import_state 3 (trench_export_state c6DemoState) c6DemoState).2.positions =
      c6DemoState.positions.map (fun kv =>
        (kv.1, (kv.2.filter (fun p => decide (p.size ≠ 0))).map (importedPos 3 kv.1))) :=
  C6_export_import_drops_zero_positions 3 c6DemoState (by decide)

-- ---------------------------------------------------------------------------
-- C8: the limit-order sweep
-- ---------------------------------------------------------------------------

/-- The sweep's trigger predicate for an order id, evaluated in state
`s` against the single market price `mp` (which the sweep quotes once,
for `TRENCH_DEFAULT_PAIR`): the order must still be `PENDING` and a Buy
triggers when `mp ≤ priceLimit`, a Sell when `priceLimit ≤ mp`
(`price_limit` of `None` is coerced to 0 by the source's `or 0`). -/
def sweepFills (s : TrenchState) (mp : Int) (oid : String) : Bool :=
  match dlookup s.orders oid with
  | some o => decide (o.status = OrderStatus.pending ∧
      ((o.side = OrderSide.buy ∧ mp ≤ o.price_limit.getD 0) ∨
       (o.side = OrderSide.sell ∧ o.price_limit.getD 0 ≤ mp)))
  | none => false

def isPendingIn (s : TrenchState) (oid : String) : Bool :=
  match dlookup s.orders oid with
  | some o => decide (o.status = OrderStatus.pending)
  | none => false

theorem fill_lookup_ne (now : Int) (oid oid' : String) (s : TrenchState)
    (h : oid' ≠ oid) :
    dlookup (_trench_fill_order now oid s).orders oid' = dlookup s.orders oid' := by
  unfold _trench_fill_order
  cases ho : dlookup s.orders oid with
  | none => rfl
  | some o =>
    by_cases hp : o.status = OrderStatus.pending
    · simp only [hp, if_pos]
      exact dlookup_dinsert_ne _ _ _ _ h
    · simp only [hp, if_neg, if_false]

theorem fill_mock_prices (now : Int) (oid : String) (s : TrenchState) :
    (_trench_fill_order now oid s).mock_prices = s.mock_prices := by
  unfold _trench_fill_order
  cases ho : dlookup s.orders oid with
  | none => rfl
  | some o =>
    by_cases hp : o.status = OrderStatus.pending <;> simp [hp]

theorem fill_limit_orders (now : Int) (oid : String) (s : TrenchState) :
    (_trench_fill_order now oid s).limit_orders = s.limit_orders := by
  unfold _trench_fill_order
  cases ho : dlookup s.orders oid with
  | none => rfl
  | some o =>
    by_cases hp : o.status = OrderStatus.pending <;> simp [hp]

theorem getMockPrice_congr (s s0 : TrenchState) (pair : String)
    (h : s.mock_prices = s0.mock_prices) :
    _trench_get_mock_price s pair = _trench_get_mock_price s0 pair := by
  unfold _trench_get_mock_price
  rw [h]

/-- Full characterization of the sweep loop, relative to the statuses
in the pre-sweep state `s0`: it adds to the accumulator one count per
triggered pending order, never touches the working-set list or any order
id outside the iterated list, fills exactly the triggered pending orders
(each at its OWN pair's quote) and leaves every other order as it
was. -/
theorem sweepLoop_spec (now mp : Int) :
    ∀ (l : List String) (s s0 : TrenchState) (n : Nat),
    l.Nodup →
    (∀ oid ∈ l, dlookup s.orders oid = dlookup s0.orders oid) →
    s.mock_prices = s0.mock_prices →
    s.limit_orders = s0.limit_orders →
    (sweepLoop now mp l s n).1 = n + l.countP (sweepFills s0 mp) ∧
    (sweepLoop now mp l s n).2.limit_orders = s0.limit_orders ∧
    (∀ oid ∈ l, dlookup (sweepLoop now mp l s n).2.orders oid =
      match dlookup s0.orders oid with
      | some o =>
        if sweepFills s0 mp oid then
          some (filledOrder now (_trench_get_mock_price s0 o.pair) o)
        else some o
      | none => none) ∧
    (∀ oid', oid' ∉ l →
      dlookup (sweepLoop now mp l s n).2.orders oid' = dlookup s.orders oid') := by
  intro l
  induction l with
  | nil =>
    intro s s0 n _ _ _ hlim
    exact ⟨rfl, hlim, fun x hx => absurd hx (List.not_mem_nil x), fun _ _ => rfl⟩
  | cons oid rest ih =>
    intro s s0 n hnodup hagree hmp hlim
    have hagree_head := hagree oid (List.mem_cons_self _ _)
    have hoid_notin : oid ∉ rest := (List.nodup_cons.mp hnodup).1
    have hnodup' : rest.Nodup := (List.nodup_cons.mp hnodup).2
    have hagree' : ∀ x ∈ rest, dlookup s.orders x = dlookup s0.orders x :=
      fun x hx => hagree x (List.mem_cons_of_mem _ hx)
    cases hs : dlookup s.orders oid with
    | none =>
      have hs0 : dlookup s0.orders oid = none := by rw [← hagree_head]; exact hs
      have hsF : sweepFills s0 mp oid = false := by simp [sweepFills, hs0]
      simp only [sweepLoop, hs]
      obtain ⟨ih1, ih2, ih3, ih4⟩ := ih s s0 n hnodup' hagree' hmp hlim
      refine ⟨?_, ih2, ?_, ?_⟩
      · rw [ih1, List.countP_cons, hsF]
        simp
      · intro x hx
        rcases List.mem_cons.mp hx with rfl | hx'
        · rw [ih4 x hoid_notin, hs, hs0]
        · exact ih3 x hx'
      · intro x hx
        exact ih4 x (fun hmem' => hx (List.mem_cons_of_mem _ hmem'))
    | some o =>
      have hs0 : dlookup s0.orders oid = some o := by rw [← hagree_head]; exact hs
      simp only [sweepLoop, hs]
      by_cases hp : o.status = OrderStatus.pending
      · rw [if_neg (by simp [hp])]
        by_cases htrig1 : o.side = OrderSide.buy ∧ mp ≤ o.price_limit.getD 0
        · rw [if_pos htrig1]
          have hsF : sweepFills s0 mp oid = true := by
            simp [sweepFills, hs0, hp]
            exact Or.inl htrig1
          have hfill : dlookup (_trench_fill_order now oid s).orders oid =
              some (filledOrder now (_trench_get_mock_price s0 o.pair) o) := by
            rw [fill_of_pending now oid s o hs hp, getMockPrice_congr s s0 o.pair hmp]
            exact dlookup_dinsert_self _ _ _
          obtain ⟨ih1, ih2, ih3, ih4⟩ := ih (_trench_fill_order now oid s) s0 (n + 1)
            hnodup'
            (fun x hx => by
              rw [fill_lookup_ne now oid x s (fun h => hoid_notin (h ▸ hx))]
              exact hagree' x hx)
            ((fill_mock_prices now oid s).trans hmp)
            ((fill_limit_orders now oid s).trans hlim)
          refine ⟨?_, ih2, ?_, ?_⟩
          · rw [ih1, List.countP_cons, hsF]
            simp
            omega
          · intro x hx
            rcases List.mem_cons.mp hx with rfl | hx'
            · rw [ih4 x hoid_notin, hfill, hs0, hsF]
              simp
            · exact ih3 x hx'
          · intro x hx
            have hxo : x ≠ oid := fun h => hx (h ▸ List.mem_cons_self _ _)
            rw [ih4 x (fun hmem' => hx (List.mem_cons_of_mem _ hmem')),
              fill_lookup_ne now oid x s hxo]
        · rw [if_neg htrig1]
          by_cases htrig2 : o.side = OrderSide.sell ∧ o.price_limit.getD 0 ≤ mp
          · rw [if_pos htrig2]
            have hsF : sweepFills s0 mp oid = true := by
              simp [sweepFills, hs0, hp]
              exact Or.inr htrig2
            have hfill : dlookup (_trench_fill_order now oid s).orders oid =
                some (filledOrder now (_trench_get_mock_price s0 o.pair) o) := by
              rw [fill_of_pending now oid s o hs hp, getMockPrice_congr s s0 o.pair hmp]
              exact dlookup_dinsert_self _ _ _
            obtain ⟨ih1, ih2, ih3, ih4⟩ := ih (_trench_fill_order now oid s) s0 (n + 1)
              hnodup'
              (fun x hx => by
                rw [fill_lookup_ne now oid x s (fun h => hoid_notin (h ▸ hx))]
                exact hagree' x hx)
              ((fill_mock_prices now oid s).trans hmp)
              ((fill_limit_orders now oid s).trans hlim)
            refine ⟨?_, ih2, ?_, ?_⟩
            · rw [ih1, List.countP_cons, hsF]
              simp
              omega
            · intro x hx
              rcases List.mem_cons.mp hx with rfl | hx'
              · rw [ih4 x hoid_notin, hfill, hs0, hsF]
                simp
              · exact ih3 x hx'
            · intro x hx
              have hxo : x ≠ oid := fun h => hx (h ▸ List.mem_cons_self _ _)
              rw [ih4 x (fun hmem' => hx (List.mem_cons_of_mem _ hmem')),
                fill_lookup_ne now oid x s hxo]
          · rw [if_neg htrig2]
            have hsF : sweepFills s0 mp oid = false := by
              simp [sweepFills, hs0, hp]
              exact ⟨fun h1 => not_le.mp (fun h2 => htrig1 ⟨h1, h2⟩),
                fun h1 => not_le.mp (fun h2 => htrig2 ⟨h1, h2⟩)⟩
            obtain ⟨ih1, ih2, ih3, ih4⟩ := ih s s0 n hnodup' hagree' hmp hlim
            refine ⟨?_, ih2, ?_, ?_⟩
            · rw [ih1, List.countP_cons, hsF]
              simp
            · intro x hx
              rcases List.mem_cons.mp hx with rfl | hx'
              · rw [ih4 x hoid_notin, hs, hs0, hsF]
                simp
              · exact ih3 x hx'
            · intro x hx
              exact ih4 x (fun hmem' => hx (List.mem_cons_of_mem _ hmem'))
      · rw [if_pos hp]
        have hsF : sweepFills s0 mp oid = false := by
          simp [sweepFills, hs0, hp]
        obtain ⟨ih1, ih2, ih3, ih4⟩ := ih s s0 n hnodup' hagree' hmp hlim
        refine ⟨?_, ih2, ?_, ?_⟩
        · rw [ih1, List.countP_cons, hsF]
          simp
        · intro x hx
          rcases List.mem_cons.mp hx with rfl | hx'
          · rw [ih4 x hoid_notin, hs, hs0, hsF]
            simp
          · exact ih3 x hx'
        · intro x hx
          exact ih4 x (fun hmem' => hx (List.mem_cons_of_mem _ hmem'))

/-- C8.  The sweep `trench_try_fill_limit_orders` evaluates EVERY
pending order of the working set against the one price it quotes — the
current quote of the configured default pair `TRENCH_DEFAULT_PAIR`, not
the order's own pair: an order triggers exactly per `sweepFills` (Buy
iff `marketPrice ≤ priceLimit`, Sell iff `marketPrice ≥ priceLimit`).
The returned count is the number of triggered pending orders; the
rebuilt working set keeps exactly the pending orders that did NOT
trigger (so every triggered order is removed); and every triggered order
has been filled through the fill algorithm (`status = FILLED`,
`fill_price` = the quote of the order's own pair).  Requires the
working-set ids to be distinct, which every code path preserves. -/
theorem C8_limit_sweep (now : Int) (s : TrenchState)
    (hnodup : s.limit_orders.Nodup) :
    (trench_try_fill_limit_orders now s).1 =
      s.limit_orders.countP
        (sweepFills s (_trench_get_mock_price s TRENCH_DEFAULT_PAIR)) ∧
    (trench_try_fill_limit_orders now s).2.limit_orders =
      s.limit_orders.filter (fun oid =>
        isPendingIn s oid &&
          !(sweepFills s (_trench_get_mock_price s TRENCH_DEFAULT_PAIR) oid)) ∧
    (∀ oid ∈ s.limit_orders, ∀ o : TrenchOrder, dlookup s.orders oid = some o →
      sweepFills s (_trench_get_mock_price s TRENCH_DEFAULT_PAIR) oid = true →
      dlookup (trench_try_fill_limit_orders now s).2.orders oid =
        some (filledOrder now (_trench_get_mock_price s o.pair) o)) := by
  obtain ⟨h1, h2, h3, h4⟩ :=
    sweepLoop_spec now (_trench_get_mock_price s TRENCH_DEFAULT_PAIR)
      s.limit_orders s s 0 hnodup (fun _ _ => rfl) rfl rfl
  unfold trench_try_fill_limit_orders
  dsimp only
  refine ⟨?_, ?_, ?_⟩
  · rw [h1]
    simp
  · rw [h2]
    apply List.filter_congr
    intro oid hmem
    have hr := h3 oid hmem
    cases ho : dlookup s.orders oid with
    | none =>
      rw [ho] at hr
      simp [isPendingIn, ho, hr]
    | some o =>
      rw [ho] at hr
      cases htr : sweepFills s (_trench_get_mock_price s TRENCH_DEFAULT_PAIR) oid with
      | true =>
        rw [htr] at hr
        simp only [if_true] at hr
        simp [isPendingIn, ho, hr, htr, filledOrder]
      | false =>
        rw [htr] at hr
        simp only [if_false] at hr
        simp [isPendingIn, ho, hr, htr]
  · intro oid hmem o ho htrig
    have hr := h3 oid hmem
    rw [ho, htrig] at hr
    simp only [if_true] at hr
    exact hr

/-- The spec's limit-sweep scenario: a pending Limit Sell at
`priceLimit = 3 * SCALE` while the default pair quotes `3 * SCALE`. -/
def c8SellOrder : TrenchOrder :=
  { order_id := "S1", user_id := 1, chat_id := 1, pair := "TRCH/ETH",
    side := OrderSide.sell, order_type := OrderType.limit,
    amount_quote := 6 * TRENCH_SCALE, amount_base := 2 * TRENCH_SCALE,
    price_limit := some (3 * TRENCH_SCALE), status := OrderStatus.pending,
    created_at := 0, updated_at := 0, fill_price := none, filled_amount := 0 }

def c8DemoState : TrenchState :=
  { orders := [("S1", c8SellOrder)]
    positions := []
    balances := []
    order_id_counter := 1
    rate_limit := []
    mock_prices := [("TRCH/ETH", 3 * TRENCH_SCALE)]
    limit_orders := ["S1"] }

theorem C8_limit_sweep_witness :
    (trench_try_fill_limit_orders 5 c8DemoState).1 =
      c8DemoState.limit_orders.countP
        (sweepFills c8DemoState (_trench_get_mock_price c8DemoState TRENCH_DEFAULT_PAIR)) ∧
    (trench_try_fill_limit_orders 5 c8DemoState).2.limit_orders =
      c8DemoState.limit_orders.filter (fun oid =>
        isPendingIn c8DemoState oid &&
          !(sweepFills c8DemoState
            (_trench_get_mock_price c8DemoState TRENCH_DEFAULT_PAIR) oid)) ∧
    dlookup (trench_try_fill_limit_orders 5 c8DemoState).2.orders "S1" =
      some (filledOrder 5 (_trench_get_mock_price c8DemoState c8SellOrder.pair)
        c8SellOrder) :=
  ⟨(C8_limit_sweep 5 c8DemoState (by decide)).1,
   (C8_limit_sweep 5 c8DemoState (by decide)).2.1,
   (C8_limit_sweep 5 c8DemoState (by decide)).2.2 "S1" (by decide) c8SellOrder
     (by decide) (by decide)⟩
